import Mathlib

/-!
# InstaAllergy — verification of the food-scanner core

Shallow embedding of the two UI components of the repository:

* `FoodScanner` (the pipeline orchestrator and session state): image staging,
  the two two-stage pipelines (AnalyzeFood: classify → allergen check;
  ScanLabel: extract text → allergen check), tab switching, result display.
* `CameraView` (the camera resource manager): `startCamera` / `stopCamera`,
  the mount/unmount lifecycle and the error discrimination in the catch block.

React `useState` slots become fields of an explicit state record; each event
handler becomes a state-transformer; the remote AI flows are oracles passed
in as functions returning `Except`; the calls a handler issues are returned
alongside the new state so that "which remote operations ran" is provable.
-/

namespace InstaAllergy

/-- Allergen alert level of `DetectAllergensOutput.alert`
(the string union HIGH | MODERATE | SAFE in the source). -/
inductive Alert
  | HIGH
  | MODERATE
  | SAFE
  deriving DecidableEq, Repr

/-- The `foodDetails` record inside `ClassifyFoodOutput`; field shapes taken
from their uses in the component (`ingredients` joined with ", ", `nutritionalData`,
`region`, `history`) and §3 of the design (the flow module itself is not in
the analysed sources). -/
structure FoodDetails where
  ingredients : List String
  nutritionalData : String
  region : String
  history : String
  deriving DecidableEq, Repr

/-- Output of the `classifyFood` flow, as consumed by the component
(`classification`, `confidence`, `isFood`, optional `foodDetails`,
`alternativeSuggestions`); `confidence` is a number in [0,1] in the source,
embedded as a rational. -/
structure ClassifyFoodOutput where
  classification : String
  confidence : ℚ
  isFood : Bool
  foodDetails : Option FoodDetails
  alternativeSuggestions : List String
  deriving DecidableEq, Repr

/-- Output of the `detectAllergensAndGenerateAlert` flow, as consumed by the
component (`alert`, `allergenDetected`, `detectedAllergens`). -/
structure DetectAllergensOutput where
  alert : Alert
  allergenDetected : Bool
  detectedAllergens : List String
  deriving DecidableEq, Repr

/-- One toast pushed to the user notification channel
(`toast({variant, title, description})`). -/
structure Toast where
  variant : String
  title : String
  description : String
  deriving DecidableEq, Repr

/-- The two tabs / pipeline kinds of the scanner. -/
inductive Tab
  | analyzeFood
  | scanLabel
  deriving DecidableEq, Repr

/-- The other pipeline kind. -/
def Tab.other : Tab → Tab
  | .analyzeFood => .scanLabel
  | .scanLabel => .analyzeFood

/-- A remote AI-flow invocation issued by a handler, with its arguments. -/
inductive RemoteCall
  | classifyFood (photoDataUri : String)
  | detectAllergens (ingredients : String) (allergens : List String)
  | extractTextFromImage (photoDataUri : String)
  deriving DecidableEq, Repr

/-- The `useState` slots of `FoodScanner` (plus the toast log and one ghost
field `resultsImage` recording which staged image the currently recorded
result slots were computed from — used only to state the 1:1
image/run invariant, never read by the transition functions). -/
structure ScannerState where
  preview : Option String
  formImage : Option String
  activeTab : Tab
  classificationResult : Option ClassifyFoodOutput
  allergenResult : Option DetectAllergensOutput
  isClassifyLoading : Bool
  classifyError : Option String
  isOcrLoading : Bool
  extractedText : Option String
  ocrAllergenResult : Option DetectAllergensOutput
  ocrError : Option String
  isCameraOpen : Bool
  toasts : List Toast
  resultsImage : Option String
  deriving DecidableEq, Repr

/-- Initial state: nothing staged, AnalyzeFood tab active (the `defaultValue`
of the `Tabs`), no results, no errors, camera closed. -/
def initState : ScannerState where
  preview := none
  formImage := none
  activeTab := .analyzeFood
  classificationResult := none
  allergenResult := none
  isClassifyLoading := false
  classifyError := none
  isOcrLoading := false
  extractedText := none
  ocrAllergenResult := none
  ocrError := none
  isCameraOpen := false
  toasts := []
  resultsImage := none

/-- `resetResults`: clears the six result/error slots of both pipelines. -/
def resetResults (s : ScannerState) : ScannerState :=
  { s with classificationResult := none, allergenResult := none,
           classifyError := none, extractedText := none,
           ocrAllergenResult := none, ocrError := none }

/-- `resetState`: form reset, preview cleared, results cleared, camera
closed. -/
def resetState (s : ScannerState) : ScannerState :=
  { resetResults s with preview := none, formImage := none,
                        isCameraOpen := false }

/-- `handleFileChange`, at the point its `FileReader.onloadend` callback has
fired: the data URI becomes the preview, the file becomes the form value, and
`resetResults` runs. -/
def handleFileChange (dataUri : String) (s : ScannerState) : ScannerState :=
  resetResults { s with preview := some dataUri, formImage := some dataUri }

/-- `handleCapture`: the data URI of the captured frame becomes the preview and the
form value, `resetResults` runs, and the camera view is closed. -/
def handleCapture (dataUri : String) (s : ScannerState) : ScannerState :=
  resetResults { s with preview := some dataUri, formImage := some dataUri,
                        isCameraOpen := false }

/-- `openCamera`: `resetState()` then `setIsCameraOpen(true)`. -/
def openCamera (s : ScannerState) : ScannerState :=
  { resetState s with isCameraOpen := true }

/-- The `onValueChange` handler of the `Tabs`: set the active tab and clear
all result slots. -/
def tabsOnValueChange (t : Tab) (s : ScannerState) : ScannerState :=
  resetResults { s with activeTab := t }

/-- Props of the risk badge as produced by `getAlertBadgeProps`. -/
structure BadgeProps where
  variant : String
  className : String
  children : String
  deriving DecidableEq, Repr

/-- `getAlertBadgeProps`: maps an (optional) alert level to badge props; the
default branch yields the outline UNKNOWN badge. -/
def getAlertBadgeProps : Option Alert → BadgeProps
  | some .HIGH => ⟨"destructive", "", "HIGH RISK"⟩
  | some .MODERATE => ⟨"secondary", "border-yellow-500/50", "MODERATE RISK"⟩
  | some .SAFE =>
      ⟨"default", "bg-chart-2 text-accent-foreground hover:bg-chart-2/90",
       "SAFE"⟩
  | none => ⟨"outline", "", "UNKNOWN"⟩

/-- `classifyBadgeProps`: recomputed on every render from `allergenResult`
(`allergenResult ? getAlertBadgeProps(allergenResult.alert)
 : getAlertBadgeProps()`). -/
def classifyBadgeProps (s : ScannerState) : BadgeProps :=
  getAlertBadgeProps (s.allergenResult.map (·.alert))

/-- `ocrBadgeProps`: same derivation for the ScanLabel pipeline. -/
def ocrBadgeProps (s : ScannerState) : BadgeProps :=
  getAlertBadgeProps (s.ocrAllergenResult.map (·.alert))

/-- Render guard of the ScanLabel results card:
`extractedText` non-null and the scan-label tab active. -/
def scanCardShown (s : ScannerState) : Bool :=
  s.extractedText.isSome && s.activeTab == Tab.scanLabel

/-- The offline toast of `onSubmit`. -/
def offlineToastAnalyze : Toast :=
  ⟨"destructive", "You\x27re Offline",
   "An internet connection is required to analyze food."⟩

/-- The offline toast of `handleScanLabel`. -/
def offlineToastScan : Toast :=
  ⟨"destructive", "You\x27re Offline",
   "An internet connection is required to scan labels."⟩

/-- The no-image inline error message (same string in both handlers). -/
def noImageMsg : String := "Please select an image first."

/-- Inline error set by the catch block of `onSubmit`. -/
def analyzeErrMsg : String :=
  "An error occurred during analysis. Please try again."

/-- Inline error set by the catch block of `handleScanLabel`. -/
def scanErrMsg : String :=
  "An error occurred during label analysis. Please try again."

/-- Toast of the catch block of `onSubmit`. -/
def analyzeFailToast : Toast :=
  ⟨"destructive", "Analysis Failed", "Could not analyze the food item."⟩

/-- Toast of the catch block of `handleScanLabel`. -/
def scanFailToast : Toast :=
  ⟨"destructive", "Analysis Failed", "Could not analyze the product label."⟩

/-- The catch block of `onSubmit`: set the inline error, push the toast, stop
the loading flag. Result slots already written are left untouched. -/
def analyzeCatch (s : ScannerState) : ScannerState :=
  { s with classifyError := some analyzeErrMsg,
           toasts := analyzeFailToast :: s.toasts,
           isClassifyLoading := false }

/-- The catch block of `handleScanLabel`. -/
def scanCatch (s : ScannerState) : ScannerState :=
  { s with ocrError := some scanErrMsg,
           toasts := scanFailToast :: s.toasts,
           isOcrLoading := false }

/-- The try block of `onSubmit`, run to completion: stage 1 `classifyFood`,
then — only if `isFood` and `foodDetails` is present — stage 2
`detectAllergensAndGenerateAlert` with the ingredients joined by `", "` and
the allergens of the user. Returns the new state and the remote calls issued.
The stage-1 result is recorded before stage 2 is attempted; any oracle
failure flows to the catch block without rolling stage 1 back. -/
def analyzeStages (classify : String → Except Unit ClassifyFoodOutput)
    (detect : String → List String → Except Unit DetectAllergensOutput)
    (allergens : List String) (uri : String) (s : ScannerState) :
    ScannerState × List RemoteCall :=
  match classify uri with
  | .error _ => (analyzeCatch s, [.classifyFood uri])
  | .ok cf =>
    let s1 : ScannerState :=
      { s with classificationResult := some cf, resultsImage := some uri }
    match cf.isFood, cf.foodDetails with
    | true, some fd =>
      let ing := String.intercalate ", " fd.ingredients
      match detect ing allergens with
      | .error _ =>
          (analyzeCatch s1,
           [.classifyFood uri, .detectAllergens ing allergens])
      | .ok da =>
          ({ s1 with allergenResult := some da, isClassifyLoading := false },
           [.classifyFood uri, .detectAllergens ing allergens])
    | _, _ => ({ s1 with isClassifyLoading := false }, [.classifyFood uri])

/-- `onSubmit`: offline precondition (toast and return, before anything else),
no-image precondition (inline error and return), then loading flag on,
`resetResults`, and the two stages. -/
def onSubmit (online : Bool)
    (classify : String → Except Unit ClassifyFoodOutput)
    (detect : String → List String → Except Unit DetectAllergensOutput)
    (allergens : List String) (s : ScannerState) :
    ScannerState × List RemoteCall :=
  if !online then
    ({ s with toasts := offlineToastAnalyze :: s.toasts }, [])
  else
    match s.preview with
    | none => ({ s with classifyError := some noImageMsg }, [])
    | some uri =>
        analyzeStages classify detect allergens uri
          (resetResults { s with isClassifyLoading := true })

/-- The try block of `handleScanLabel`, run to completion: stage 1
`extractTextFromImage` (the text is recorded even when empty), then — only if
the text is non-empty (JS truthiness of the string) — stage 2
`detectAllergensAndGenerateAlert` on that text. -/
def scanStages (extract : String → Except Unit String)
    (detect : String → List String → Except Unit DetectAllergensOutput)
    (allergens : List String) (uri : String) (s : ScannerState) :
    ScannerState × List RemoteCall :=
  match extract uri with
  | .error _ => (scanCatch s, [.extractTextFromImage uri])
  | .ok t =>
    let s1 : ScannerState :=
      { s with extractedText := some t, resultsImage := some uri }
    if t ≠ "" then
      match detect t allergens with
      | .error _ =>
          (scanCatch s1,
           [.extractTextFromImage uri, .detectAllergens t allergens])
      | .ok da =>
          ({ s1 with ocrAllergenResult := some da, isOcrLoading := false },
           [.extractTextFromImage uri, .detectAllergens t allergens])
    else ({ s1 with isOcrLoading := false }, [.extractTextFromImage uri])

/-- `handleScanLabel`: same precondition structure as `onSubmit`, then the
ScanLabel stages. -/
def handleScanLabel (online : Bool)
    (extract : String → Except Unit String)
    (detect : String → List String → Except Unit DetectAllergensOutput)
    (allergens : List String) (s : ScannerState) :
    ScannerState × List RemoteCall :=
  if !online then
    ({ s with toasts := offlineToastScan :: s.toasts }, [])
  else
    match s.preview with
    | none => ({ s with ocrError := some noImageMsg }, [])
    | some uri =>
        scanStages extract detect allergens uri
          (resetResults { s with isOcrLoading := true })

/-- User-driven events of the scanner session, each carrying the oracle
outcomes its remote calls will see. In this sequential system a submit runs
to completion atomically (no overlapping runs); the interleaved model below
drops that assumption. -/
inductive Ev
  | submitAnalyze (online : Bool)
      (classify : String → Except Unit ClassifyFoodOutput)
      (detect : String → List String → Except Unit DetectAllergensOutput)
      (allergens : List String)
  | submitScan (online : Bool)
      (extract : String → Except Unit String)
      (detect : String → List String → Except Unit DetectAllergensOutput)
      (allergens : List String)
  | switchTab (t : Tab)
  | stageFile (dataUri : String)
  | captureImage (dataUri : String)
  | openCam
  | clearImage

/-- One step of the sequential session system. -/
def step (s : ScannerState) : Ev → ScannerState
  | .submitAnalyze online classify detect allergens =>
      (onSubmit online classify detect allergens s).1
  | .submitScan online extract detect allergens =>
      (handleScanLabel online extract detect allergens s).1
  | .switchTab t => tabsOnValueChange t s
  | .stageFile uri => handleFileChange uri s
  | .captureImage uri => handleCapture uri s
  | .openCam => openCamera s
  | .clearImage => resetState s

/-- States reachable from `initState` by user events. -/
inductive Reachable : ScannerState → Prop
  | init : Reachable initState
  | next {s : ScannerState} (e : Ev) : Reachable s → Reachable (step s e)

/-- Session invariant: (a) with no staged image, no result slot is populated
and the only possible inline error is the no-image message; (b) any populated
result slot was computed from the currently staged image (the ghost
`resultsImage` agrees with `preview`). -/
def SessionInv (s : ScannerState) : Prop :=
  (s.preview = none →
    s.classificationResult = none ∧ s.allergenResult = none ∧
    s.extractedText = none ∧ s.ocrAllergenResult = none ∧
    (s.classifyError = none ∨ s.classifyError = some noImageMsg) ∧
    (s.ocrError = none ∨ s.ocrError = some noImageMsg)) ∧
  ((s.classificationResult ≠ none ∨ s.allergenResult ≠ none ∨
    s.extractedText ≠ none ∨ s.ocrAllergenResult ≠ none) →
    s.resultsImage = s.preview)

/-!
## Interleaved pipeline model

`onSubmit` and `handleScanLabel` suspend at each `await`; the continuation
after a remote response runs against whatever the component state is at that
moment, and the source compares no run identifier or generation counter
before applying a stage result (`setClassificationResult(cfOutput)` etc. are
unconditional). This model makes the suspension points explicit: a submit
issues a request and returns; a separate event delivers the response and runs
the continuation exactly as the source does.
-/

/-- Scanner state with explicit in-flight requests.  `pendingClassify` /
`pendingExtract` record a stage-1 call awaiting its response;
`pendingDetectA` / `pendingDetectO` record an awaited stage-2 call together
with the ingredient text it was invoked with. -/
structure AsyncState where
  activeTab : Tab
  classificationResult : Option ClassifyFoodOutput
  allergenResult : Option DetectAllergensOutput
  isClassifyLoading : Bool
  classifyError : Option String
  isOcrLoading : Bool
  extractedText : Option String
  ocrAllergenResult : Option DetectAllergensOutput
  ocrError : Option String
  pendingClassify : Bool
  pendingDetectA : Option String
  pendingExtract : Bool
  pendingDetectO : Option String
  deriving DecidableEq, Repr

/-- Initial interleaved state: AnalyzeFood tab, image staged and online
(the preconditions of the handlers are assumed to pass), nothing pending. -/
def asyncInit : AsyncState where
  activeTab := .analyzeFood
  classificationResult := none
  allergenResult := none
  isClassifyLoading := false
  classifyError := none
  isOcrLoading := false
  extractedText := none
  ocrAllergenResult := none
  ocrError := none
  pendingClassify := false
  pendingDetectA := none
  pendingExtract := false
  pendingDetectO := none

/-- `resetResults` on the interleaved state (pending requests are untouched:
the source has no cancellation). -/
def asyncResetResults (s : AsyncState) : AsyncState :=
  { s with classificationResult := none, allergenResult := none,
           classifyError := none, extractedText := none,
           ocrAllergenResult := none, ocrError := none }

/-- Interleaving events: starting a run up to its first `await`, delivery of
each remote response (running the continuation of the handler), and a tab
switch. -/
inductive AEv
  | startAnalyze
  | classifyResp (cf : ClassifyFoodOutput) (allergens : List String)
  | detectRespA (da : DetectAllergensOutput)
  | startScan
  | extractResp (t : String) (allergens : List String)
  | detectRespO (da : DetectAllergensOutput)
  | switchTab (t : Tab)

/-- One interleaved step.  `classifyResp` is the continuation of `onSubmit`
after `await classifyFood`: it records the stage-1 result unconditionally and
either issues the stage-2 call or finishes — no staleness check guards the
state writes.  Response events fire only when the matching request is
pending. -/
def astep (s : AsyncState) : AEv → AsyncState
  | .startAnalyze =>
      if s.isClassifyLoading then s
      else asyncResetResults
        { s with isClassifyLoading := true, pendingClassify := true }
  | .classifyResp cf _allergens =>
      if s.pendingClassify then
        let s1 := { s with pendingClassify := false,
                           classificationResult := some cf }
        match cf.isFood, cf.foodDetails with
        | true, some fd =>
            let ing := String.intercalate ", " fd.ingredients
            { s1 with pendingDetectA := some ing }
        | _, _ => { s1 with isClassifyLoading := false }
      else s
  | .detectRespA da =>
      if s.pendingDetectA.isSome then
        { s with pendingDetectA := none, allergenResult := some da,
                 isClassifyLoading := false }
      else s
  | .startScan =>
      if s.isOcrLoading then s
      else asyncResetResults
        { s with isOcrLoading := true, pendingExtract := true }
  | .extractResp t _allergens =>
      if s.pendingExtract then
        let s1 := { s with pendingExtract := false,
                           extractedText := some t }
        if t ≠ "" then { s1 with pendingDetectO := some t }
        else { s1 with isOcrLoading := false }
      else s
  | .detectRespO da =>
      if s.pendingDetectO.isSome then
        { s with pendingDetectO := none, ocrAllergenResult := some da,
                 isOcrLoading := false }
      else s
  | .switchTab t => asyncResetResults { s with activeTab := t }

/-- Run a list of interleaving events. -/
def arun (s : AsyncState) (evs : List AEv) : AsyncState :=
  evs.foldl astep s

/-- A concrete stage-1 output used to exercise the staleness hazard. -/
def cfStale : ClassifyFoodOutput where
  classification := "Pizza"
  confidence := 9 / 10
  isFood := true
  foodDetails := some ⟨["cheese", "flour"], "", "", ""⟩
  alternativeSuggestions := []

/-- The interleaving in which run A (AnalyzeFood) is superseded by a tab
switch and a ScanLabel run B before the stage-1 response of A arrives. -/
def staleTrace : List AEv :=
  [.startAnalyze, .switchTab .scanLabel, .startScan,
   .extractResp "milk" ["milk"], .classifyResp cfStale ["milk"]]

/-!
## Camera resource model

`CameraView` holds the stream in a `useRef`; `startCamera` first runs
`stopCamera`, then awaits `getUserMedia`; the mount effect starts the camera
and its cleanup stops it.  A `getUserMedia` request is a suspension point
(the permission prompt): it can still be pending when the component unmounts
(capture, cancel, or teardown all unmount `CameraView`), and a grant arriving
after that writes the stream into the ref of the dead instance, where no cleanup
will ever stop its tracks.  The model tracks every stream whose hardware
tracks are running (`live`), the ref of the current instance, and the pending
requests of the current and of already-unmounted instances.
-/

structure CamState where
  mounted : Bool
  streamRef : Option Nat
  pendingCur : Nat
  pendingOrphan : Nat
  live : List Nat
  nextId : Nat
  deriving DecidableEq, Repr

/-- No component mounted, no stream, nothing pending. -/
def camInit : CamState where
  mounted := false
  streamRef := none
  pendingCur := 0
  pendingOrphan := 0
  live := []
  nextId := 0

/-- `stopCamera`: stop every track of the referenced stream and null the ref. -/
def stopCamera (s : CamState) : CamState :=
  match s.streamRef with
  | some id => { s with live := s.live.filter (· ≠ id), streamRef := none }
  | none => s

/-- Camera lifecycle events.  `mount` is the mount of a `CameraView`
instance whose effect runs `startCamera` (= `stopCamera` on the fresh null
ref, then one `getUserMedia` request); `unmount` is any exit path — capture,
cancel, or teardown — running the effect cleanup (`stopCamera`) and orphaning
any still-pending request of this instance; `grantCur` / `grantOrphan`
deliver a granted stream to a live resp. unmounted instance
(`streamRef.current = stream`); `deny` rejects a pending request. -/
inductive CamEv
  | mount
  | unmount
  | grantCur
  | grantOrphan
  | denyCur
  | denyOrphan
  deriving DecidableEq, Repr

def camStep (s : CamState) : CamEv → CamState
  | .mount =>
      if s.mounted then s
      else { s with mounted := true, streamRef := none, pendingCur := 1 }
  | .unmount =>
      if s.mounted then
        let s' := stopCamera s
        { s' with mounted := false,
                  pendingOrphan := s'.pendingOrphan + s'.pendingCur,
                  pendingCur := 0 }
      else s
  | .grantCur =>
      if s.mounted ∧ 0 < s.pendingCur then
        { s with pendingCur := s.pendingCur - 1,
                 live := s.nextId :: s.live,
                 streamRef := some s.nextId,
                 nextId := s.nextId + 1 }
      else s
  | .grantOrphan =>
      if 0 < s.pendingOrphan then
        { s with pendingOrphan := s.pendingOrphan - 1,
                 live := s.nextId :: s.live,
                 nextId := s.nextId + 1 }
      else s
  | .denyCur =>
      if s.mounted ∧ 0 < s.pendingCur then
        { s with pendingCur := s.pendingCur - 1 }
      else s
  | .denyOrphan =>
      if 0 < s.pendingOrphan then
        { s with pendingOrphan := s.pendingOrphan - 1 }
      else s

def camRun (s : CamState) (evs : List CamEv) : CamState :=
  evs.foldl camStep s

/-- A trace is clean when no instance is ever torn down while its
`getUserMedia` request is still pending (every prompt resolves before
capture/cancel/teardown). -/
def CleanTrace : CamState → List CamEv → Prop
  | _, [] => True
  | s, e :: es =>
      (e = CamEv.unmount → s.pendingCur = 0) ∧ CleanTrace (camStep s e) es

instance : ∀ s evs, Decidable (CleanTrace s evs)
  | _, [] => .isTrue trivial
  | s, e :: es =>
      have : Decidable (CleanTrace (camStep s e) es) :=
        instDecidableCleanTrace (camStep s e) es
      inferInstanceAs (Decidable (_ ∧ _))

/-- The trace refuting exclusivity: open the camera, cancel while the
permission prompt is pending, reopen, and let both prompts be granted. -/
def leakTrace : List CamEv :=
  [.mount, .unmount, .mount, .grantCur, .grantOrphan]

/-- Invariant of clean camera traces: no orphaned request exists, at most one
request is pending, the live streams are exactly the (at most one) stream in
the current ref, and an unmounted state has no live stream. -/
def CamInv (s : CamState) : Prop :=
  s.pendingOrphan = 0 ∧ s.pendingCur ≤ 1 ∧
  (match s.streamRef with
   | some id => s.live = [id]
   | none => s.live = []) ∧
  (s.mounted = false → s.streamRef = none ∧ s.live = []) ∧
  (0 < s.pendingCur → s.streamRef = none)

/-- The catch block of `startCamera`: maps the `name` of the caught error to the
toast shown; anything that is neither `NotAllowedError` nor `NotFoundError`
falls into the default "Camera Error" message. -/
def cameraCatchToast (errName : String) : Toast :=
  if errName = "NotAllowedError" then
    ⟨"destructive", "Camera Access Denied",
     "Please enable camera permissions in your browser settings to use this feature."⟩
  else if errName = "NotFoundError" then
    ⟨"destructive", "No Camera Found",
     "We couldn\x27t find a camera on your device."⟩
  else
    ⟨"destructive", "Camera Error",
     "Could not access the camera. Please try again."⟩

/-- When `navigator.mediaDevices.getUserMedia` is absent, `startCamera`
throws `new Error("Camera not supported on this browser.")`; the `name` of a
plain `Error` is `"Error"`, so this is what the catch block branches on. -/
def unsupportedErrName : String := "Error"

/-- One `startCamera` run, as far as its user-visible outcome goes: the new
`hasPermission` value and the toast pushed (if any).  `supported` is whether
the capture API exists; `gum` the result of `getUserMedia` — a granted
stream, or the error name of the rejection. -/
def startCameraOutcome (supported : Bool) (gum : Except String Unit) :
    Option Bool × Option Toast :=
  if !supported then
    (some false, some (cameraCatchToast unsupportedErrName))
  else
    match gum with
    | .ok _ => (some true, none)
    | .error errName => (some false, some (cameraCatchToast errName))

/-- Render guard of the AnalyzeFood results card:
`classificationResult` non-null and the analyze-food tab active. -/
def analyzeCardShown (s : ScannerState) : Bool :=
  s.classificationResult.isSome && s.activeTab == Tab.analyzeFood

/-- All six result/error slots of both pipelines are empty. -/
def allRunSlotsCleared (s : ScannerState) : Prop :=
  s.classificationResult = none ∧ s.allergenResult = none ∧
  s.classifyError = none ∧ s.extractedText = none ∧
  s.ocrAllergenResult = none ∧ s.ocrError = none

/-- A concrete stage-1 classification used by the witnesses. -/
def cfW : ClassifyFoodOutput :=
  ⟨"Ice cream", 1, true, some ⟨["milk", "sugar"], "", "", ""⟩, []⟩

/-- A concrete stage-2 allergen-check result used by the witnesses. -/
def daW : DetectAllergensOutput := ⟨.HIGH, true, ["milk"]⟩

lemma sessionInv_init : SessionInv initState := by
  constructor
  · intro _; simp [initState]
  · intro h
    simp [initState] at h

/-- `analyzeStages` never touches the staged image, the active tab, the
camera flag, or the ScanLabel slots. -/
lemma analyzeStages_frame (c : String → Except Unit ClassifyFoodOutput)
    (d : String → List String → Except Unit DetectAllergensOutput)
    (a : List String) (uri : String) (s : ScannerState) :
    (analyzeStages c d a uri s).1.preview = s.preview ∧
    (analyzeStages c d a uri s).1.formImage = s.formImage ∧
    (analyzeStages c d a uri s).1.activeTab = s.activeTab ∧
    (analyzeStages c d a uri s).1.isCameraOpen = s.isCameraOpen ∧
    (analyzeStages c d a uri s).1.extractedText = s.extractedText ∧
    (analyzeStages c d a uri s).1.ocrAllergenResult = s.ocrAllergenResult ∧
    (analyzeStages c d a uri s).1.ocrError = s.ocrError ∧
    (analyzeStages c d a uri s).1.isOcrLoading = s.isOcrLoading := by
  unfold analyzeStages
  rcases c uri with e | cf
  · simp [analyzeCatch]
  · rcases hif : cf.isFood <;> rcases hfd : cf.foodDetails with _ | fd <;>
      simp only [hif, hfd]
    · simp
    · simp
    · simp
    · rcases d (String.intercalate ", " fd.ingredients) a with e | da <;>
        simp [analyzeCatch]

/-- If `analyzeStages` populates a result slot, the ghost `resultsImage` of
the outcome is the image it analysed (given that the slots of the input state were
just cleared). -/
lemma analyzeStages_resultsImage (c : String → Except Unit ClassifyFoodOutput)
    (d : String → List String → Except Unit DetectAllergensOutput)
    (a : List String) (uri : String) (s : ScannerState)
    (hs1 : s.classificationResult = none) (hs2 : s.allergenResult = none)
    (hs3 : s.extractedText = none) (hs4 : s.ocrAllergenResult = none) :
    ((analyzeStages c d a uri s).1.classificationResult ≠ none ∨
     (analyzeStages c d a uri s).1.allergenResult ≠ none ∨
     (analyzeStages c d a uri s).1.extractedText ≠ none ∨
     (analyzeStages c d a uri s).1.ocrAllergenResult ≠ none) →
    (analyzeStages c d a uri s).1.resultsImage = some uri := by
  unfold analyzeStages
  rcases c uri with e | cf
  · simp [analyzeCatch, hs1, hs2, hs3, hs4]
  · rcases hif : cf.isFood <;> rcases hfd : cf.foodDetails with _ | fd <;>
      simp only [hif, hfd]
    · simp
    · simp
    · simp
    · rcases d (String.intercalate ", " fd.ingredients) a with e | da <;>
        simp [analyzeCatch]

/-- `scanStages` never touches the staged image, the active tab, the camera
flag, or the AnalyzeFood slots. -/
lemma scanStages_frame (ex : String → Except Unit String)
    (d : String → List String → Except Unit DetectAllergensOutput)
    (a : List String) (uri : String) (s : ScannerState) :
    (scanStages ex d a uri s).1.preview = s.preview ∧
    (scanStages ex d a uri s).1.formImage = s.formImage ∧
    (scanStages ex d a uri s).1.activeTab = s.activeTab ∧
    (scanStages ex d a uri s).1.isCameraOpen = s.isCameraOpen ∧
    (scanStages ex d a uri s).1.classificationResult =
      s.classificationResult ∧
    (scanStages ex d a uri s).1.allergenResult = s.allergenResult ∧
    (scanStages ex d a uri s).1.classifyError = s.classifyError ∧
    (scanStages ex d a uri s).1.isClassifyLoading = s.isClassifyLoading := by
  unfold scanStages
  rcases ex uri with e | t
  · simp [scanCatch]
  · by_cases ht : t = ""
    · simp [ht]
    · simp only [ne_eq, ht, not_false_eq_true, if_true]
      rcases d t a with e | da <;> simp [scanCatch]

/-- If `scanStages` populates a result slot, the ghost `resultsImage` of the
outcome is the image it analysed (given freshly cleared slots). -/
lemma scanStages_resultsImage (ex : String → Except Unit String)
    (d : String → List String → Except Unit DetectAllergensOutput)
    (a : List String) (uri : String) (s : ScannerState)
    (hs1 : s.classificationResult = none) (hs2 : s.allergenResult = none)
    (hs3 : s.extractedText = none) (hs4 : s.ocrAllergenResult = none) :
    ((scanStages ex d a uri s).1.classificationResult ≠ none ∨
     (scanStages ex d a uri s).1.allergenResult ≠ none ∨
     (scanStages ex d a uri s).1.extractedText ≠ none ∨
     (scanStages ex d a uri s).1.ocrAllergenResult ≠ none) →
    (scanStages ex d a uri s).1.resultsImage = some uri := by
  unfold scanStages
  rcases ex uri with e | t
  · simp [scanCatch, hs1, hs2, hs3, hs4]
  · by_cases ht : t = ""
    · simp [ht]
    · simp only [ne_eq, ht, not_false_eq_true, if_true]
      rcases d t a with e | da <;> simp [scanCatch]

lemma sessionInv_onSubmit (online : Bool)
    (classify : String → Except Unit ClassifyFoodOutput)
    (detect : String → List String → Except Unit DetectAllergensOutput)
    (allergens : List String) {s : ScannerState} (h : SessionInv s) :
    SessionInv (onSubmit online classify detect allergens s).1 := by
  obtain ⟨h1, h2⟩ := h
  cases online with
  | false =>
      refine ⟨fun hp => ?_, fun hh => ?_⟩
      · exact h1 hp
      · exact h2 hh
  | true =>
      cases hp : s.preview with
      | none =>
          have hres : (onSubmit true classify detect allergens s).1 =
              { s with classifyError := some noImageMsg } := by
            simp [onSubmit, hp]
          rw [hres]
          obtain ⟨a1, a2, a3, a4, _, a6⟩ := h1 hp
          exact ⟨fun _ => ⟨a1, a2, a3, a4, Or.inr rfl, a6⟩,
                 fun hh => h2 hh⟩
      | some uri =>
          have hres : (onSubmit true classify detect allergens s).1 =
              (analyzeStages classify detect allergens uri
                (resetResults { s with isClassifyLoading := true })).1 := by
            simp [onSubmit, hp]
          rw [hres]
          obtain ⟨f1, _, _, _, _, _, _, _⟩ :=
            analyzeStages_frame classify detect allergens uri
              (resetResults { s with isClassifyLoading := true })
          refine ⟨fun hpnone => ?_, fun hh => ?_⟩
          · rw [f1] at hpnone
            have : some uri = none := hp.symm.trans hpnone
            exact Option.noConfusion this
          · have := analyzeStages_resultsImage classify detect allergens uri
              (resetResults { s with isClassifyLoading := true })
              rfl rfl rfl rfl hh
            rw [this, f1]
            exact hp.symm

lemma sessionInv_handleScanLabel (online : Bool)
    (extract : String → Except Unit String)
    (detect : String → List String → Except Unit DetectAllergensOutput)
    (allergens : List String) {s : ScannerState} (h : SessionInv s) :
    SessionInv (handleScanLabel online extract detect allergens s).1 := by
  obtain ⟨h1, h2⟩ := h
  cases online with
  | false =>
      refine ⟨fun hp => ?_, fun hh => ?_⟩
      · exact h1 hp
      · exact h2 hh
  | true =>
      cases hp : s.preview with
      | none =>
          have hres : (handleScanLabel true extract detect allergens s).1 =
              { s with ocrError := some noImageMsg } := by
            simp [handleScanLabel, hp]
          rw [hres]
          obtain ⟨a1, a2, a3, a4, a5, _⟩ := h1 hp
          exact ⟨fun _ => ⟨a1, a2, a3, a4, a5, Or.inr rfl⟩,
                 fun hh => h2 hh⟩
      | some uri =>
          have hres : (handleScanLabel true extract detect allergens s).1 =
              (scanStages extract detect allergens uri
                (resetResults { s with isOcrLoading := true })).1 := by
            simp [handleScanLabel, hp]
          rw [hres]
          obtain ⟨f1, _, _, _, _, _, _, _⟩ :=
            scanStages_frame extract detect allergens uri
              (resetResults { s with isOcrLoading := true })
          refine ⟨fun hpnone => ?_, fun hh => ?_⟩
          · rw [f1] at hpnone
            have : some uri = none := hp.symm.trans hpnone
            exact Option.noConfusion this
          · have := scanStages_resultsImage extract detect allergens uri
              (resetResults { s with isOcrLoading := true })
              rfl rfl rfl rfl hh
            rw [this, f1]
            exact hp.symm

lemma sessionInv_step {s : ScannerState} (h : SessionInv s) (e : Ev) :
    SessionInv (step s e) := by
  cases e with
  | submitAnalyze online classify detect allergens =>
      exact sessionInv_onSubmit online classify detect allergens h
  | submitScan online extract detect allergens =>
      exact sessionInv_handleScanLabel online extract detect allergens h
  | switchTab t =>
      refine ⟨fun _ => ?_, fun hh => ?_⟩
      · simp [step, tabsOnValueChange, resetResults]
      · simp [step, tabsOnValueChange, resetResults] at hh
  | stageFile uri =>
      refine ⟨fun hp => ?_, fun hh => ?_⟩
      · simp [step, handleFileChange, resetResults] at hp
      · simp [step, handleFileChange, resetResults] at hh
  | captureImage uri =>
      refine ⟨fun hp => ?_, fun hh => ?_⟩
      · simp [step, handleCapture, resetResults] at hp
      · simp [step, handleCapture, resetResults] at hh
  | openCam =>
      refine ⟨fun _ => ?_, fun hh => ?_⟩
      · simp [step, openCamera, resetState, resetResults]
      · simp [step, openCamera, resetState, resetResults] at hh
  | clearImage =>
      refine ⟨fun _ => ?_, fun hh => ?_⟩
      · simp [step, resetState, resetResults]
      · simp [step, resetState, resetResults] at hh

lemma sessionInv_reachable {s : ScannerState} (h : Reachable s) :
    SessionInv s := by
  induction h with
  | init => exact sessionInv_init
  | next e _ ih => exact sessionInv_step ih e

lemma camInv_init : CamInv camInit := by
  refine ⟨rfl, by simp [camInit], ?_, fun _ => ⟨rfl, rfl⟩, fun h => rfl⟩
  simp [camInit]

lemma camInv_step {s : CamState} (h : CamInv s) (e : CamEv)
    (hc : e = CamEv.unmount → s.pendingCur = 0) :
    CamInv (camStep s e) := by
  obtain ⟨h1, h2, h3, h4, h5⟩ := h
  cases e with
  | mount =>
      by_cases hm : s.mounted
      · simpa [camStep, hm] using ⟨h1, h2, h3, h4, h5⟩
      · have hm' : s.mounted = false := by simpa using hm
        obtain ⟨hr, hl⟩ := h4 hm'
        refine ⟨?_, ?_, ?_, ?_, ?_⟩ <;>
          simp [camStep, hm, hr, hl, h1]
  | unmount =>
      by_cases hm : s.mounted
      · have hp0 : s.pendingCur = 0 := hc rfl
        rcases hr : s.streamRef with _ | id
        · rw [hr] at h3
          refine ⟨?_, ?_, ?_, ?_, ?_⟩ <;>
            simp [camStep, hm, stopCamera, hr, h1, hp0, h3]
        · rw [hr] at h3
          refine ⟨?_, ?_, ?_, ?_, ?_⟩ <;>
            simp [camStep, hm, stopCamera, hr, h1, hp0, h3,
              List.filter_eq_nil_iff]
      · simpa [camStep, hm] using ⟨h1, h2, h3, h4, h5⟩
  | grantCur =>
      by_cases hg : s.mounted ∧ 0 < s.pendingCur
      · have hr : s.streamRef = none := h5 hg.2
        rw [hr] at h3
        simp only [camStep, if_pos hg]
        refine ⟨h1, ?_, ?_, ?_, ?_⟩
        · show s.pendingCur - 1 ≤ 1
          omega
        · simpa using h3
        · intro hm
          have hm' : s.mounted = false := hm
          rw [hg.1] at hm'
          exact Bool.noConfusion hm'
        · intro hpos
          have hpos' : 0 < s.pendingCur - 1 := hpos
          exact absurd hpos' (by omega)
      · simpa [camStep, if_neg hg] using ⟨h1, h2, h3, h4, h5⟩
  | grantOrphan =>
      have hno : ¬ 0 < s.pendingOrphan := by omega
      simpa [camStep, if_neg hno] using ⟨h1, h2, h3, h4, h5⟩
  | denyCur =>
      by_cases hg : s.mounted ∧ 0 < s.pendingCur
      · simp only [camStep, if_pos hg]
        refine ⟨h1, ?_, h3, h4, ?_⟩
        · show s.pendingCur - 1 ≤ 1
          omega
        · intro hpos
          have hpos' : 0 < s.pendingCur - 1 := hpos
          exact absurd hpos' (by omega)
      · simpa [camStep, if_neg hg] using ⟨h1, h2, h3, h4, h5⟩
  | denyOrphan =>
      have hno : ¬ 0 < s.pendingOrphan := by omega
      simpa [camStep, if_neg hno] using ⟨h1, h2, h3, h4, h5⟩

lemma camInv_run {s : CamState} (h : CamInv s) {evs : List CamEv}
    (hc : CleanTrace s evs) : CamInv (camRun s evs) := by
  induction evs generalizing s with
  | nil => exact h
  | cons e es ih =>
      obtain ⟨hc1, hc2⟩ := hc
      exact ih (camInv_step h e hc1) hc2

/-- The first remote call issued by `analyzeStages` is always the stage-1
classification of the submitted image. -/
lemma analyzeStages_calls_head (c : String → Except Unit ClassifyFoodOutput)
    (d : String → List String → Except Unit DetectAllergensOutput)
    (a : List String) (uri : String) (s : ScannerState) :
    (analyzeStages c d a uri s).2.head? = some (.classifyFood uri) := by
  unfold analyzeStages
  rcases c uri with e | cf
  · rfl
  · rcases hif : cf.isFood <;> rcases hfd : cf.foodDetails with _ | fd <;>
      simp only [hif, hfd]
    · rfl
    · rfl
    · rfl
    · rcases d (String.intercalate ", " fd.ingredients) a with e | da <;> rfl

/-- The first remote call issued by `scanStages` is always the stage-1 text
extraction of the submitted image. -/
lemma scanStages_calls_head (ex : String → Except Unit String)
    (d : String → List String → Except Unit DetectAllergensOutput)
    (a : List String) (uri : String) (s : ScannerState) :
    (scanStages ex d a uri s).2.head? = some (.extractTextFromImage uri) := by
  unfold scanStages
  rcases ex uri with e | t
  · rfl
  · by_cases ht : t = ""
    · simp [ht]
    · simp only [ne_eq, ht, not_false_eq_true, if_true]
      rcases d t a with e | da <;> rfl

/-- C1: the staleness guarantee does not hold in the code.  In the
interleaving where an AnalyzeFood run A is superseded by a tab switch and a
ScanLabel run B before the stage-1 response of A arrives, the late response of A is
applied to state (the stale classification is recorded and a stage-2 call
for the stale run is even issued) — no run identifier or generation counter
is compared before any stage result is applied. -/
theorem C1_late_response_applied :
    (arun asyncInit staleTrace).classificationResult = some cfStale ∧
    (arun asyncInit staleTrace).pendingDetectA = some "cheese, flour" ∧
    (arun asyncInit staleTrace).extractedText = some "milk" := by
  refine ⟨?_, ?_, ?_⟩ <;> rfl

/-- C4: with the connectivity predicate reporting offline, both pipeline
triggers push the destructive Offline toast and return: no remote call is
issued and the state is otherwise untouched (no loading flag, no result or
error slot changes) — the run never starts. -/
theorem C4_offline_aborts (s : ScannerState)
    (classify : String → Except Unit ClassifyFoodOutput)
    (extract : String → Except Unit String)
    (detect : String → List String → Except Unit DetectAllergensOutput)
    (allergens : List String) :
    onSubmit false classify detect allergens s =
      ({ s with toasts := offlineToastAnalyze :: s.toasts }, []) ∧
    handleScanLabel false extract detect allergens s =
      ({ s with toasts := offlineToastScan :: s.toasts }, []) :=
  ⟨rfl, rfl⟩

/-- C6 counterexample: opening the camera, cancelling while the permission
prompt is still pending, and reopening yields — once both prompts are
granted — two simultaneously live camera streams; the claim that at most one
live stream ever exists (and that every exit path releases the stream) is
false for the code. -/
theorem C6_counterexample :
    (camRun camInit leakTrace).live.length = 2 ∧
    (camRun camInit leakTrace).mounted = true := by
  exact ⟨rfl, rfl⟩

/-- C6 amended: provided every `getUserMedia` request resolves (grant or
denial) before its `CameraView` instance is torn down, at most one live
camera stream exists at every reachable point, and whenever no instance is
mounted (after capture, cancel, or teardown) no stream is live. -/
theorem C6_amended (evs : List CamEv) (hc : CleanTrace camInit evs) :
    (camRun camInit evs).live.length ≤ 1 ∧
    ((camRun camInit evs).mounted = false → (camRun camInit evs).live = []) := by
  obtain ⟨_, _, h3, h4, _⟩ := camInv_run camInv_init hc
  constructor
  · revert h3
    rcases (camRun camInit evs).streamRef with _ | id <;> intro h3 <;>
      simp [h3]
  · intro hm
    exact (h4 hm).2

/-- C6 witness: a concrete clean trace — open, grant, capture/teardown —
for which the amended exclusivity and release facts are obtained from
`C6_amended`. -/
theorem C6_witness :
    CleanTrace camInit [CamEv.mount, CamEv.grantCur, CamEv.unmount] ∧
    (camRun camInit [CamEv.mount, CamEv.grantCur, CamEv.unmount]).live.length
      ≤ 1 ∧
    (camRun camInit [CamEv.mount, CamEv.grantCur, CamEv.unmount]).live = [] :=
  have hc : CleanTrace camInit [CamEv.mount, CamEv.grantCur, CamEv.unmount] :=
    by decide
  have h := C6_amended [CamEv.mount, CamEv.grantCur, CamEv.unmount] hc
  ⟨hc, h.1, h.2 rfl⟩

/-- C7 counterexample: the absent-capture-API failure is caught with
`err.name = "Error"`, so its toast is the generic "Camera Error" one — the
very same toast any other unclassified failure (for example a
`NotReadableError`) produces.  The Unsupported case therefore has no
distinguishable user-facing message of its own, contrary to the claim. -/
theorem C7_counterexample :
    (startCameraOutcome false (.ok ())).2 =
      (startCameraOutcome true (.error "NotReadableError")).2 ∧
    (startCameraOutcome false (.ok ())).2 =
      some ⟨"destructive", "Camera Error",
            "Could not access the camera. Please try again."⟩ := by
  exact ⟨rfl, rfl⟩

/-- C7 amended: permission denial and missing device are discriminated —
`NotAllowedError` records permission denied and shows the "Camera Access
Denied" toast, `NotFoundError` shows the distinct "No Camera Found" toast —
but an absent capture API, although detected and failed, surfaces only the
generic "Camera Error" toast shared with every other unclassified failure. -/
theorem C7_amended :
    startCameraOutcome true (.error "NotAllowedError") =
      (some false,
       some ⟨"destructive", "Camera Access Denied",
             "Please enable camera permissions in your browser settings to use this feature."⟩) ∧
    startCameraOutcome true (.error "NotFoundError") =
      (some false,
       some ⟨"destructive", "No Camera Found",
             "We couldn\x27t find a camera on your device."⟩) ∧
    cameraCatchToast "NotAllowedError" ≠ cameraCatchToast "NotFoundError" ∧
    cameraCatchToast "NotAllowedError" ≠ cameraCatchToast "SomeOtherError" ∧
    cameraCatchToast "NotFoundError" ≠ cameraCatchToast "SomeOtherError" ∧
    (∀ gum : Except String Unit,
      startCameraOutcome false gum =
        (some false,
         some ⟨"destructive", "Camera Error",
               "Could not access the camera. Please try again."⟩)) := by
  refine ⟨rfl, rfl, by decide, by decide, by decide, fun gum => rfl⟩

/-- C2: for an AnalyzeFood run whose stage-1 classification succeeds, the
stage-2 allergen check is invoked iff the classification has `isFood = true`
and `foodDetails` present; when invoked, its input is the ingredient list
joined by `", "` together with the allergens of the user; when skipped, the run
completes after stage 1 with no allergen result and the derived risk badge
is the outline UNKNOWN one (no allergen badge can render). -/
theorem C2_analyze_stage2_iff (s : ScannerState) (uri : String)
    (classify : String → Except Unit ClassifyFoodOutput)
    (detect : String → List String → Except Unit DetectAllergensOutput)
    (allergens : List String) (cf : ClassifyFoodOutput)
    (hp : s.preview = some uri) (hc : classify uri = Except.ok cf) :
    ((∃ ing al, RemoteCall.detectAllergens ing al ∈
        (onSubmit true classify detect allergens s).2) ↔
      (cf.isFood = true ∧ cf.foodDetails ≠ none)) ∧
    (∀ fd, cf.isFood = true → cf.foodDetails = some fd →
      RemoteCall.detectAllergens (String.intercalate ", " fd.ingredients)
        allergens ∈ (onSubmit true classify detect allergens s).2) ∧
    (cf.isFood = false ∨ cf.foodDetails = none →
      (onSubmit true classify detect allergens s).2 =
        [RemoteCall.classifyFood uri] ∧
      (onSubmit true classify detect allergens s).1.allergenResult = none ∧
      (onSubmit true classify detect allergens s).1.isClassifyLoading
        = false ∧
      (onSubmit true classify detect allergens s).1.classifyError = none ∧
      classifyBadgeProps (onSubmit true classify detect allergens s).1 =
        ⟨"outline", "", "UNKNOWN"⟩) := by
  have hres : onSubmit true classify detect allergens s =
      analyzeStages classify detect allergens uri
        (resetResults { s with isClassifyLoading := true }) := by
    simp [onSubmit, hp]
  rw [hres]
  rcases hif : cf.isFood <;> rcases hfd : cf.foodDetails with _ | fd
  · refine ⟨?_, ?_, ?_⟩ <;>
      simp [analyzeStages, hc, hif, hfd, resetResults, classifyBadgeProps,
        getAlertBadgeProps]
  · refine ⟨?_, ?_, ?_⟩ <;>
      simp [analyzeStages, hc, hif, hfd, resetResults, classifyBadgeProps,
        getAlertBadgeProps]
  · refine ⟨?_, ?_, ?_⟩ <;>
      simp [analyzeStages, hc, hif, hfd, resetResults, classifyBadgeProps,
        getAlertBadgeProps]
  · rcases hd : detect (String.intercalate ", " fd.ingredients) allergens
      with e | da <;>
      refine ⟨?_, ?_, ?_⟩ <;>
        simp [analyzeStages, hc, hif, hfd, hd, resetResults]

/-- C2 witness: a staged image, a classification that is food with
ingredients ["milk", "sugar"], and a profile ["milk"]: the stage-2 call with
the joined ingredient text is issued. -/
theorem C2_witness :
    RemoteCall.detectAllergens "milk, sugar" ["milk"] ∈
      (onSubmit true (fun _ => Except.ok cfW) (fun _ _ => Except.ok daW)
        ["milk"] (handleFileChange "img" initState)).2 := by
  have h := C2_analyze_stage2_iff (handleFileChange "img" initState) "img"
    (fun _ => Except.ok cfW) (fun _ _ => Except.ok daW) ["milk"] cfW rfl rfl
  exact h.2.1 ⟨["milk", "sugar"], "", "", ""⟩ rfl rfl

/-- C3: for a ScanLabel run whose stage-1 extraction succeeds, the extracted
text is recorded and the results card renders it even when it is empty, and
the stage-2 allergen check is invoked iff the text is non-empty. -/
theorem C3_scan_text_recorded (s : ScannerState) (uri : String)
    (extract : String → Except Unit String)
    (detect : String → List String → Except Unit DetectAllergensOutput)
    (allergens : List String) (t : String)
    (hp : s.preview = some uri) (htab : s.activeTab = Tab.scanLabel)
    (he : extract uri = Except.ok t) :
    (handleScanLabel true extract detect allergens s).1.extractedText
      = some t ∧
    scanCardShown (handleScanLabel true extract detect allergens s).1
      = true ∧
    ((∃ ing al, RemoteCall.detectAllergens ing al ∈
        (handleScanLabel true extract detect allergens s).2) ↔ t ≠ "") ∧
    (t ≠ "" → RemoteCall.detectAllergens t allergens ∈
        (handleScanLabel true extract detect allergens s).2) := by
  have hres : handleScanLabel true extract detect allergens s =
      scanStages extract detect allergens uri
        (resetResults { s with isOcrLoading := true }) := by
    simp [handleScanLabel, hp]
  rw [hres]
  by_cases ht : t = ""
  · subst ht
    refine ⟨?_, ?_, ?_, ?_⟩ <;>
      simp [scanStages, he, scanCardShown, resetResults, htab]
  · rcases hd : detect t allergens with e | da <;>
      refine ⟨?_, ?_, ?_, ?_⟩ <;>
        simp [scanStages, he, ht, hd, scanCardShown, scanCatch,
          resetResults, htab]

/-- C3 witness: a ScanLabel run whose extraction returns the empty string
records it, renders the card, and issues no stage-2 call. -/
theorem C3_witness :
    (handleScanLabel true (fun _ => Except.ok "") (fun _ _ => Except.ok daW)
        ["milk"]
        (tabsOnValueChange Tab.scanLabel
          (handleFileChange "img" initState))).1.extractedText = some "" ∧
    scanCardShown (handleScanLabel true (fun _ => Except.ok "")
        (fun _ _ => Except.ok daW) ["milk"]
        (tabsOnValueChange Tab.scanLabel
          (handleFileChange "img" initState))).1 = true ∧
    ¬ ∃ ing al, RemoteCall.detectAllergens ing al ∈
      (handleScanLabel true (fun _ => Except.ok "")
        (fun _ _ => Except.ok daW) ["milk"]
        (tabsOnValueChange Tab.scanLabel
          (handleFileChange "img" initState))).2 := by
  have h := C3_scan_text_recorded
    (tabsOnValueChange Tab.scanLabel (handleFileChange "img" initState))
    "img" (fun _ => Except.ok "") (fun _ _ => Except.ok daW) ["milk"] ""
    rfl rfl rfl
  refine ⟨h.1, h.2.1, fun hx => ?_⟩
  exact (h.2.2.1.mp hx) rfl

/-- C5: once stage 1 has succeeded and its result is recorded, a stage-2
failure moves the run to the terminal AnalysisFailed error state (inline
error plus destructive toast, loading off) while the recorded stage-1
result — the classification resp. the extracted text — is not rolled
back. -/
theorem C5_stage2_failure_keeps_stage1 :
    (∀ (s : ScannerState) (uri : String)
      (classify : String → Except Unit ClassifyFoodOutput)
      (detect : String → List String → Except Unit DetectAllergensOutput)
      (allergens : List String) (cf : ClassifyFoodOutput) (fd : FoodDetails),
      s.preview = some uri → classify uri = Except.ok cf →
      cf.isFood = true → cf.foodDetails = some fd →
      detect (String.intercalate ", " fd.ingredients) allergens =
        Except.error () →
      (onSubmit true classify detect allergens s).1.classificationResult
        = some cf ∧
      (onSubmit true classify detect allergens s).1.classifyError
        = some analyzeErrMsg ∧
      (onSubmit true classify detect allergens s).1.isClassifyLoading
        = false ∧
      analyzeFailToast ∈
        (onSubmit true classify detect allergens s).1.toasts) ∧
    (∀ (s : ScannerState) (uri : String)
      (extract : String → Except Unit String)
      (detect : String → List String → Except Unit DetectAllergensOutput)
      (allergens : List String) (t : String),
      s.preview = some uri → extract uri = Except.ok t → t ≠ "" →
      detect t allergens = Except.error () →
      (handleScanLabel true extract detect allergens s).1.extractedText
        = some t ∧
      (handleScanLabel true extract detect allergens s).1.ocrError
        = some scanErrMsg ∧
      (handleScanLabel true extract detect allergens s).1.isOcrLoading
        = false ∧
      scanFailToast ∈
        (handleScanLabel true extract detect allergens s).1.toasts) := by
  constructor
  · intro s uri classify detect allergens cf fd hp hc hif hfd hd
    have hres : onSubmit true classify detect allergens s =
        analyzeStages classify detect allergens uri
          (resetResults { s with isClassifyLoading := true }) := by
      simp [onSubmit, hp]
    rw [hres]
    refine ⟨?_, ?_, ?_, ?_⟩ <;>
      simp [analyzeStages, hc, hif, hfd, hd, analyzeCatch, resetResults]
  · intro s uri extract detect allergens t hp he ht hd
    have hres : handleScanLabel true extract detect allergens s =
        scanStages extract detect allergens uri
          (resetResults { s with isOcrLoading := true }) := by
      simp [handleScanLabel, hp]
    rw [hres]
    refine ⟨?_, ?_, ?_, ?_⟩ <;>
      simp [scanStages, he, ht, hd, scanCatch, resetResults]

/-- C5 witness: concrete runs of both pipelines whose stage 2 rejects keep
their stage-1 result while entering the failed state. -/
theorem C5_witness :
    ((onSubmit true (fun _ => Except.ok cfW) (fun _ _ => Except.error ())
        ["milk"]
        (handleFileChange "img" initState)).1.classificationResult
      = some cfW ∧
     (onSubmit true (fun _ => Except.ok cfW) (fun _ _ => Except.error ())
        ["milk"] (handleFileChange "img" initState)).1.classifyError
      = some analyzeErrMsg) ∧
    ((handleScanLabel true (fun _ => Except.ok "milk")
        (fun _ _ => Except.error ()) ["milk"]
        (handleFileChange "img" initState)).1.extractedText = some "milk" ∧
     (handleScanLabel true (fun _ => Except.ok "milk")
        (fun _ _ => Except.error ()) ["milk"]
        (handleFileChange "img" initState)).1.ocrError = some scanErrMsg) :=
  have h1 := C5_stage2_failure_keeps_stage1.1 (handleFileChange "img"
    initState) "img" (fun _ => Except.ok cfW) (fun _ _ => Except.error ())
    ["milk"] cfW ⟨["milk", "sugar"], "", "", ""⟩ rfl rfl rfl rfl rfl
  have h2 := C5_stage2_failure_keeps_stage1.2 (handleFileChange "img"
    initState) "img" (fun _ => Except.ok "milk")
    (fun _ _ => Except.error ()) ["milk"] "milk" rfl rfl
    (by decide) rfl
  ⟨⟨h1.1, h1.2.1⟩, ⟨h2.1, h2.2.1⟩⟩

/-- C8: switching the active tab clears the displayed run of the other pipeline
(its results and its error) while staged image payload and preview are
untouched; no already-displayed result of the kind being switched to exists
at switch time (its card renders only while its tab is active), so none is
corrupted. -/
theorem C8_tab_switch (s : ScannerState) (t : Tab)
    (hne : t ≠ s.activeTab) :
    (t = Tab.analyzeFood →
      (tabsOnValueChange t s).extractedText = none ∧
      (tabsOnValueChange t s).ocrAllergenResult = none ∧
      (tabsOnValueChange t s).ocrError = none) ∧
    (t = Tab.scanLabel →
      (tabsOnValueChange t s).classificationResult = none ∧
      (tabsOnValueChange t s).allergenResult = none ∧
      (tabsOnValueChange t s).classifyError = none) ∧
    (tabsOnValueChange t s).preview = s.preview ∧
    (tabsOnValueChange t s).formImage = s.formImage ∧
    (t = Tab.analyzeFood → analyzeCardShown s = false) ∧
    (t = Tab.scanLabel → scanCardShown s = false) := by
  refine ⟨fun _ => ⟨rfl, rfl, rfl⟩, fun _ => ⟨rfl, rfl, rfl⟩, rfl, rfl,
    fun hta => ?_, fun hts => ?_⟩
  · subst hta
    have hb : (s.activeTab == Tab.analyzeFood) = false := by
      simp only [beq_eq_false_iff_ne]
      exact fun hx => hne hx.symm
    simp [analyzeCardShown, hb]
  · subst hts
    have hb : (s.activeTab == Tab.scanLabel) = false := by
      simp only [beq_eq_false_iff_ne]
      exact fun hx => hne hx.symm
    simp [scanCardShown, hb]

/-- C8 witness: switching from AnalyzeFood to ScanLabel on a state with a
staged image clears the AnalyzeFood slots and keeps the preview. -/
theorem C8_witness :
    (tabsOnValueChange Tab.scanLabel
        (handleFileChange "img" initState)).classificationResult = none ∧
    (tabsOnValueChange Tab.scanLabel
        (handleFileChange "img" initState)).preview = some "img" := by
  have h := C8_tab_switch (handleFileChange "img" initState) Tab.scanLabel
    (by decide)
  exact ⟨(h.2.1 rfl).1, h.2.2.1⟩

/-- C9: staging an image — upload or capture — replaces the staged payload
and clears all six result/error slots of both pipelines; and on every
reachable state any populated result slot was computed from the currently
staged image (the 1:1 image/run invariant). -/
theorem C9_staging_invalidates (s : ScannerState) (hr : Reachable s) :
    (∀ uri : String,
      (handleFileChange uri s).preview = some uri ∧
      (handleFileChange uri s).formImage = some uri ∧
      allRunSlotsCleared (handleFileChange uri s) ∧
      (handleCapture uri s).preview = some uri ∧
      (handleCapture uri s).formImage = some uri ∧
      allRunSlotsCleared (handleCapture uri s)) ∧
    ((s.classificationResult ≠ none ∨ s.allergenResult ≠ none ∨
      s.extractedText ≠ none ∨ s.ocrAllergenResult ≠ none) →
      s.resultsImage = s.preview) := by
  refine ⟨fun uri => ⟨rfl, rfl, ?_, rfl, rfl, ?_⟩, ?_⟩
  · exact ⟨rfl, rfl, rfl, rfl, rfl, rfl⟩
  · exact ⟨rfl, rfl, rfl, rfl, rfl, rfl⟩
  · exact (sessionInv_reachable hr).2

/-- C9 witness: staging over the initial state. -/
theorem C9_witness :
    (handleFileChange "img" initState).preview = some "img" ∧
    allRunSlotsCleared (handleFileChange "img" initState) ∧
    (handleCapture "img" initState).preview = some "img" := by
  have h := (C9_staging_invalidates initState Reachable.init).1 "img"
  exact ⟨h.1, h.2.2.1, h.2.2.2.1⟩

/-- C10: a trigger failing a precondition changes nothing besides its own
notification — offline pushes only a toast; a missing image writes only the
inline error slot of the triggering pipeline, and by reachability nothing else
was displayed (all result slots empty, errors at most that same message);
no loading flag is set and `resetResults` is not run.  A trigger passing
both preconditions factors through `resetResults` — all six slots cleared —
before its first remote call, which is the stage-1 call on the staged
image. -/
theorem C10_precondition_atomicity (s : ScannerState) (hr : Reachable s)
    (classify : String → Except Unit ClassifyFoodOutput)
    (extract : String → Except Unit String)
    (detect : String → List String → Except Unit DetectAllergensOutput)
    (allergens : List String) :
    (onSubmit false classify detect allergens s =
       ({ s with toasts := offlineToastAnalyze :: s.toasts }, []) ∧
     handleScanLabel false extract detect allergens s =
       ({ s with toasts := offlineToastScan :: s.toasts }, [])) ∧
    (s.preview = none →
      onSubmit true classify detect allergens s =
        ({ s with classifyError := some noImageMsg }, []) ∧
      handleScanLabel true extract detect allergens s =
        ({ s with ocrError := some noImageMsg }, []) ∧
      s.classificationResult = none ∧ s.allergenResult = none ∧
      s.extractedText = none ∧ s.ocrAllergenResult = none ∧
      (s.classifyError = none ∨ s.classifyError = some noImageMsg) ∧
      (s.ocrError = none ∨ s.ocrError = some noImageMsg)) ∧
    (∀ uri : String, s.preview = some uri →
      onSubmit true classify detect allergens s =
        analyzeStages classify detect allergens uri
          (resetResults { s with isClassifyLoading := true }) ∧
      allRunSlotsCleared
        (resetResults { s with isClassifyLoading := true }) ∧
      (analyzeStages classify detect allergens uri
          (resetResults { s with isClassifyLoading := true })).2.head? =
        some (RemoteCall.classifyFood uri) ∧
      handleScanLabel true extract detect allergens s =
        scanStages extract detect allergens uri
          (resetResults { s with isOcrLoading := true }) ∧
      allRunSlotsCleared (resetResults { s with isOcrLoading := true }) ∧
      (scanStages extract detect allergens uri
          (resetResults { s with isOcrLoading := true })).2.head? =
        some (RemoteCall.extractTextFromImage uri)) := by
  obtain ⟨h1, _⟩ := sessionInv_reachable hr
  refine ⟨⟨rfl, rfl⟩, fun hp => ?_, fun uri hp => ?_⟩
  · obtain ⟨a1, a2, a3, a4, a5, a6⟩ := h1 hp
    refine ⟨?_, ?_, a1, a2, a3, a4, a5, a6⟩
    · simp [onSubmit, hp]
    · simp [handleScanLabel, hp]
  · refine ⟨?_, ⟨rfl, rfl, rfl, rfl, rfl, rfl⟩,
      analyzeStages_calls_head classify detect allergens uri _, ?_,
      ⟨rfl, rfl, rfl, rfl, rfl, rfl⟩,
      scanStages_calls_head extract detect allergens uri _⟩
    · simp [onSubmit, hp]
    · simp [handleScanLabel, hp]

/-- C10 witness: at the freshly staged state, the passing AnalyzeFood
trigger factors through `resetResults` and classifies first; at the initial
state, the no-image trigger only writes the inline error. -/
theorem C10_witness :
    (analyzeStages (fun _ => Except.ok cfW) (fun _ _ => Except.ok daW)
        ["milk"] "img"
        (resetResults { handleFileChange "img" initState with
          isClassifyLoading := true })).2.head? =
      some (RemoteCall.classifyFood "img") ∧
    onSubmit true (fun _ => Except.ok cfW) (fun _ _ => Except.ok daW)
        ["milk"] initState =
      ({ initState with classifyError := some noImageMsg }, []) := by
  have hstaged := C10_precondition_atomicity
    (step initState (Ev.stageFile "img"))
    (Reachable.next (Ev.stageFile "img") Reachable.init)
    (fun _ => Except.ok cfW) (fun _ => Except.ok "milk")
    (fun _ _ => Except.ok daW) ["milk"]
  have hinit := C10_precondition_atomicity initState Reachable.init
    (fun _ => Except.ok cfW) (fun _ => Except.ok "milk")
    (fun _ _ => Except.ok daW) ["milk"]
  exact ⟨(hstaged.2.2 "img" rfl).2.2.1, (hinit.2.1 rfl).1⟩

end InstaAllergy
